import Mathlib

/-!
Verification of the GPU frame-rendering core of the getting-rusty repository.

The two programs under verification are rotating-cube/src/main.rs (the cube
renderer) and wgpu-test/src/main.rs (the surface/event-loop example). Scalar
arithmetic of the source (Rust f32) is modelled exactly over the rationals;
the transcendental library functions (cos, sin, tan, sqrt and the constant pi
used by glam and the Rust standard library) are abstracted into an `Ops`
record, so every matrix computation below is an exact, computable function of
those operations, mirroring the formulas in the glam crate that the source
calls.
-/

/-- Abstract scalar operations standing for the f32 library functions the
source calls (glam and the Rust standard library). -/
structure Ops where
  cos : ℚ → ℚ
  sin : ℚ → ℚ
  tan : ℚ → ℚ
  sqrt : ℚ → ℚ
  pi : ℚ

/-- Concrete instantiation of `Ops` used to exercise theorems on closed
inputs. -/
def opsZero : Ops :=
  ⟨fun _ => 0, fun _ => 0, fun _ => 0, fun _ => 0, 0⟩

/-- Model of glam Mat4: a 4 by 4 matrix of exact scalars, row-major in the
mathematical convention (glam stores columns; the translation below writes
each glam column as the corresponding matrix column). -/
abbrev Mat4 := Matrix (Fin 4) (Fin 4) ℚ

/-- Model of glam Vec3. -/
structure Vec3 where
  x : ℚ
  y : ℚ
  z : ℚ
deriving DecidableEq

/-- Vector subtraction, as in glam. -/
def Vec3.sub (a b : Vec3) : Vec3 :=
  ⟨a.x - b.x, a.y - b.y, a.z - b.z⟩

/-- Dot product, as in glam. -/
def Vec3.dot (a b : Vec3) : ℚ :=
  a.x * b.x + a.y * b.y + a.z * b.z

/-- Cross product, as in glam. -/
def Vec3.cross (a b : Vec3) : Vec3 :=
  ⟨a.y * b.z - a.z * b.y, a.z * b.x - a.x * b.z, a.x * b.y - a.y * b.x⟩

/-- Normalization, as in glam: divide by sqrt of the squared length. -/
def Vec3.normalize (ops : Ops) (v : Vec3) : Vec3 :=
  ⟨v.x / ops.sqrt (v.dot v), v.y / ops.sqrt (v.dot v), v.z / ops.sqrt (v.dot v)⟩

/-- glam Mat4::from_rotation_y. glam columns are
(cos,0,-sin,0), (0,1,0,0), (sin,0,cos,0), (0,0,0,1). -/
def fromRotationY (ops : Ops) (a : ℚ) : Mat4 :=
  !![ops.cos a, 0, ops.sin a, 0;
     0, 1, 0, 0;
     -ops.sin a, 0, ops.cos a, 0;
     0, 0, 0, 1]

/-- glam Mat4::from_rotation_x. glam columns are
(1,0,0,0), (0,cos,sin,0), (0,-sin,cos,0), (0,0,0,1). -/
def fromRotationX (ops : Ops) (a : ℚ) : Mat4 :=
  !![1, 0, 0, 0;
     0, ops.cos a, -ops.sin a, 0;
     0, ops.sin a, ops.cos a, 0;
     0, 0, 0, 1]

/-- glam Mat4::look_at_rh(eye, center, up), which is look_to_rh with
direction center - eye: forward f, side s, up u frame, written here row-major
from the glam columns (s.x,u.x,-f.x,0), (s.y,u.y,-f.y,0), (s.z,u.z,-f.z,0),
(-eye.dot s, -eye.dot u, eye.dot f, 1). -/
def lookAtRh (ops : Ops) (eye center up : Vec3) : Mat4 :=
  let f := Vec3.normalize ops (center.sub eye)
  let s := Vec3.normalize ops (f.cross up)
  let u := s.cross f
  !![s.x, s.y, s.z, -(eye.dot s);
     u.x, u.y, u.z, -(eye.dot u);
     -f.x, -f.y, -f.z, eye.dot f;
     0, 0, 0, 1]

/-- glam Mat4::perspective_rh_gl(fovY, aspect, zNear, zFar). -/
def perspectiveRhGl (ops : Ops) (fovY aspect zNear zFar : ℚ) : Mat4 :=
  let f := 1 / ops.tan ((1/2) * fovY)
  !![f / aspect, 0, 0, 0;
     0, f, 0, 0;
     0, 0, (zNear + zFar) * (1 / (zNear - zFar)), 2 * zNear * zFar * (1 / (zNear - zFar));
     0, 0, -1, 0]

/-- Rust f32::to_radians: multiply by pi / 180. -/
def toRadians (ops : Ops) (deg : ℚ) : ℚ :=
  deg * (ops.pi / 180)

/-- glam Mat4::IDENTITY, the initial content of the model uniform buffer. -/
def identityMat : Mat4 :=
  !![1, 0, 0, 0;
     0, 1, 0, 0;
     0, 0, 1, 0;
     0, 0, 0, 1]

/-- Interleaved position and color data of the 8 cube vertices, exactly the
vertex slice of rotating-cube State::new. -/
def vertices : List ℚ :=
  [-1, -1, -1, 1, 0, 0,
    1, -1, -1, 0, 1, 0,
    1, 1, -1, 0, 0, 1,
   -1, 1, -1, 1, 1, 0,
   -1, -1, 1, 1, 0, 1,
    1, -1, 1, 0, 1, 1,
    1, 1, 1, 1, 1, 1,
   -1, 1, 1, 0, 0, 0]

/-- Index slice of rotating-cube State::new: 36 16-bit indices, 12 triangles. -/
def indices : List ℕ :=
  [0, 1, 2, 2, 3, 0,
   4, 5, 6, 6, 7, 4,
   0, 4, 7, 7, 3, 0,
   1, 5, 6, 6, 2, 1,
   3, 2, 6, 6, 7, 3,
   0, 1, 5, 5, 4, 0]

/-- State of the rotating-cube program: surface configuration size, the
animation angle, and the CPU-visible contents of the two uniform buffers.
The field modelBufFromCreation is a ghost flag recording whether the model
buffer still holds the write made at buffer creation (true) or a write made
by a later update tick (false); the Rust buffer itself carries no such flag,
but every write site sets it consistently with which Rust statement wrote. -/
structure State where
  configWidth : ℕ
  configHeight : ℕ
  rotation : ℚ
  cameraBuf : Mat4
  modelBuf : Mat4
  modelBufFromCreation : Bool
  numIndices : ℕ

/-- rotating-cube State::new, restricted to the fields modelled: the surface
configuration takes the window size, rotation starts at 0, the camera buffer
is initialized to proj * view for the fixed camera at (3,3,3) looking at the
origin with up +Y, fov 45 degrees converted to radians, aspect = width/height,
near 0.1, far 100, and the model buffer is initialized to the identity. -/
def initState (ops : Ops) (w h : ℕ) : State :=
  { configWidth := w
    configHeight := h
    rotation := 0
    cameraBuf :=
      perspectiveRhGl ops (toRadians ops 45) ((w : ℚ) / (h : ℚ)) (1/10) 100 *
        lookAtRh ops ⟨3, 3, 3⟩ ⟨0, 0, 0⟩ ⟨0, 1, 0⟩
    modelBuf := identityMat
    modelBufFromCreation := true
    numIndices := indices.length }

/-- rotating-cube State::update: increment rotation by 0.01, compute
from_rotation_y(rotation) * from_rotation_x(rotation * 0.5) at the new
rotation value, and write it to the model buffer. Nothing else is touched. -/
def update (ops : Ops) (s : State) : State :=
  { s with
    rotation := s.rotation + 1/100
    modelBuf :=
      fromRotationY ops (s.rotation + 1/100) *
        fromRotationX ops ((s.rotation + 1/100) * (1/2))
    modelBufFromCreation := false }

/-- Indexed draw call arguments: the index range, base vertex and instance
range passed to draw_indexed. -/
structure DrawCall where
  firstIndex : ℕ
  endIndex : ℕ
  baseVertex : ℤ
  firstInstance : ℕ
  endInstance : ℕ
deriving DecidableEq

/-- Record of one queue submission: the draw call recorded in the render pass
and the uniform buffer contents the GPU observes for that submission. -/
structure Submission where
  draw : DrawCall
  modelAtSubmit : Mat4
  modelFromCreation : Bool
  cameraAtSubmit : Mat4

/-- rotating-cube State::render, as the submission it produces: one indexed
draw over 0..num_indices with instance range 0..1, reading the current buffer
contents. render only reads the uniform buffers; it mutates no state. -/
def render (s : State) : Submission :=
  { draw := ⟨0, s.numIndices, 0, 0, 1⟩
    modelAtSubmit := s.modelBuf
    modelFromCreation := s.modelBufFromCreation
    cameraAtSubmit := s.cameraBuf }

/-- State after N redraw ticks of the rotating-cube event loop
(MainEventsCleared runs update then render; render does not change state). -/
def stateAfter (ops : Ops) (w h n : ℕ) : State :=
  (update ops)^[n] (initState ops w h)

/-- Submission made during tick n (render runs on the state update produced). -/
def submissionAt (ops : Ops) (w h n : ℕ) : Submission :=
  render (stateAfter ops w h n)

/-- Model transform the specification prescribes for tick N:
rotationY(0.01 N) * rotationX(0.005 N). -/
def modelTransformAt (ops : Ops) (n : ℕ) : Mat4 :=
  fromRotationY ops ((n : ℚ) * (1/100)) * fromRotationX ops ((n : ℚ) * (5/1000))

/-- Outcome of one surface.get_current_texture attempt. -/
inductive AcqOutcome
  | success
  | failure
deriving DecidableEq

/-- Observable trace of one acquisition sequence: how many acquisition
attempts were made, how many surface reconfigurations, and whether the
program panicked (process abort). -/
structure AcquireTrace where
  attempts : ℕ
  reconfigures : ℕ
  panicked : Bool
deriving DecidableEq

/-- rotating-cube State::render acquisition:
surface.get_current_texture().unwrap() makes exactly one attempt, never
reconfigures, and panics on the first failure. -/
def rcAcquire (o : AcqOutcome) : AcquireTrace :=
  match o with
  | .success => ⟨1, 0, false⟩
  | .failure => ⟨1, 0, true⟩

/-- wgpu-test RedrawRequested acquisition: on Err of the first attempt,
reconfigure the surface with the current config and retry once, unwrapping
the second attempt (so a second consecutive failure panics). -/
def wtAcquire (o1 o2 : AcqOutcome) : AcquireTrace :=
  match o1 with
  | .success => ⟨1, 0, false⟩
  | .failure =>
    match o2 with
    | .success => ⟨2, 1, false⟩
    | .failure => ⟨2, 1, true⟩

/-- Window system events delivered by the host event loop. -/
inductive Event
  | resized (w h : ℕ)
  | closeRequested
  | redrawRequested
  | mainEventsCleared
deriving DecidableEq

/-- Control-flow value left in the event loop after handling one event:
keep polling, exit the loop cleanly, or abort via panic. -/
inductive LoopFlow
  | poll
  | exitClean
  | panicAbort
deriving DecidableEq

/-- Process exit code produced by a control-flow value: none while the loop
keeps running, 0 on a clean event-loop exit, 101 (the Rust panic code) on
abort. -/
def exitCode : LoopFlow → Option ℕ
  | .poll => none
  | .exitClean => some 0
  | .panicAbort => some 101

/-- rotating-cube event loop body: sets ControlFlow::Poll, runs update (and
then render) on MainEventsCleared, and ignores every other event, including
Resized and CloseRequested. -/
def rcHandleEvent (ops : Ops) (e : Event) (s : State) : State × LoopFlow :=
  match e with
  | .mainEventsCleared => (update ops s, LoopFlow.poll)
  | _ => (s, LoopFlow.poll)

/-- Texture format as the format-selection code observes it: an identity and
the is_srgb flag. -/
structure TexFormat where
  id : ℕ
  srgb : Bool
deriving DecidableEq

/-- Presentation modes relevant to the sources. -/
inductive PresentMode
  | fifo
  | immediate
  | mailbox
deriving DecidableEq

/-- Surface capabilities reported by the backend: ordered lists of supported
formats and present modes. -/
structure SurfaceCaps where
  formats : List TexFormat
  presentModes : List PresentMode
deriving DecidableEq

/-- wgpu-test format choice:
formats.iter().copied().find(is_srgb).unwrap_or(formats[0]); none models the
panic when the reported format list is empty. -/
def chooseFormat (caps : SurfaceCaps) : Option TexFormat :=
  match caps.formats.find? (fun f => f.srgb) with
  | some f => some f
  | none => caps.formats.head?

/-- rotating-cube format choice: surface.get_capabilities(adapter).formats[0],
unconditionally the first reported format. -/
def rcChooseFormat (caps : SurfaceCaps) : Option TexFormat :=
  caps.formats.head?

/-- rotating-cube present mode: hard-coded PresentMode::Fifo. -/
def rcPresentMode : PresentMode :=
  PresentMode.fifo

/-- wgpu-test present mode: surface_caps.present_modes[0], the first reported
mode. -/
def choosePresentMode (caps : SurfaceCaps) : Option PresentMode :=
  caps.presentModes.head?

/-- State of the wgpu-test program: the surface configuration size, an
identity for the surface handle (never reassigned by the source), and a count
of surface.configure calls. -/
structure WTState where
  configWidth : ℕ
  configHeight : ℕ
  surfaceId : ℕ
  reconfigures : ℕ
deriving DecidableEq

/-- wgpu-test Resized arm: write the new size into config.width and
config.height and reconfigure the same surface with the updated config. -/
def handleResize (w h : ℕ) (s : WTState) : WTState :=
  { s with configWidth := w, configHeight := h, reconfigures := s.reconfigures + 1 }

/-- wgpu-test event loop body: CloseRequested sets ControlFlow::Exit, Resized
updates the config and reconfigures, other events leave the state alone. -/
def wtHandleEvent (e : Event) (s : WTState) : WTState × LoopFlow :=
  match e with
  | .closeRequested => (s, LoopFlow.exitClean)
  | .resized w h => (handleResize w h s, LoopFlow.poll)
  | _ => (s, LoopFlow.poll)

/-- Environment rule stated by the specification: image acquisition succeeds
exactly when the surface configuration matches the current window size (a
mismatch causes acquisition failure). -/
def acquireOk (winW winH : ℕ) (s : WTState) : Bool :=
  (s.configWidth == winW) && (s.configHeight == winH)

/-! Helper lemmas about the iterated tick function. -/

theorem stateAfter_succ (ops : Ops) (w h n : ℕ) :
    stateAfter ops w h (n + 1) = update ops (stateAfter ops w h n) :=
  Function.iterate_succ_apply' (update ops) n (initState ops w h)

theorem stateAfter_rotation (ops : Ops) (w h n : ℕ) :
    (stateAfter ops w h n).rotation = (n : ℚ) / 100 := by
  induction n with
  | zero => simp [stateAfter, initState]
  | succ k ih =>
    rw [stateAfter_succ]
    simp only [update]
    rw [ih]
    push_cast
    ring

theorem stateAfter_cameraBuf (ops : Ops) (w h n : ℕ) :
    (stateAfter ops w h n).cameraBuf = (initState ops w h).cameraBuf := by
  induction n with
  | zero => rfl
  | succ k ih =>
    rw [stateAfter_succ]
    simpa only [update] using ih

theorem stateAfter_numIndices (ops : Ops) (w h n : ℕ) :
    (stateAfter ops w h n).numIndices = 36 := by
  induction n with
  | zero => rfl
  | succ k ih =>
    rw [stateAfter_succ]
    simpa only [update] using ih

theorem stateAfter_modelBufFromCreation (ops : Ops) (w h n : ℕ) (hn : 1 ≤ n) :
    (stateAfter ops w h n).modelBufFromCreation = false := by
  obtain ⟨k, rfl⟩ : ∃ k, n = k + 1 := ⟨n - 1, by omega⟩
  rw [stateAfter_succ]
  rfl

theorem stateAfter_modelBuf (ops : Ops) (w h n : ℕ) (hn : 1 ≤ n) :
    (stateAfter ops w h n).modelBuf = modelTransformAt ops n := by
  obtain ⟨k, rfl⟩ : ∃ k, n = k + 1 := ⟨n - 1, by omega⟩
  rw [stateAfter_succ]
  simp only [update, modelTransformAt]
  rw [stateAfter_rotation]
  have h1 : (k : ℚ) / 100 + 1 / 100 = ((k + 1 : ℕ) : ℚ) * (1 / 100) := by
    push_cast
    ring
  rw [h1]
  have h2 : ((k + 1 : ℕ) : ℚ) * (1 / 100) * (1 / 2) = ((k + 1 : ℕ) : ℚ) * (5 / 1000) := by
    push_cast
    ring
  rw [h2]

/-- C1: during the Updating step of every tick N >= 1, the model transform
written into the model uniform buffer equals rotationY(0.01 N) *
rotationX(0.005 N), and the transform is a pure deterministic function of the
tick count alone: a run started with any other surface size produces the
identical matrix at the same tick. -/
theorem model_transform_of_tick (ops : Ops) (w h w2 h2 N : ℕ) (hN : 1 ≤ N) :
    (stateAfter ops w h N).modelBuf = modelTransformAt ops N ∧
    (stateAfter ops w2 h2 N).modelBuf = (stateAfter ops w h N).modelBuf := by
  refine ⟨stateAfter_modelBuf ops w h N hN, ?_⟩
  rw [stateAfter_modelBuf ops w2 h2 N hN, stateAfter_modelBuf ops w h N hN]

theorem model_transform_of_tick_witness :
    1 ≤ 1 ∧
    ((stateAfter opsZero 640 480 1).modelBuf = modelTransformAt opsZero 1 ∧
      (stateAfter opsZero 800 600 1).modelBuf = (stateAfter opsZero 640 480 1).modelBuf) :=
  ⟨by decide, model_transform_of_tick opsZero 640 480 800 600 1 (by decide)⟩

/-- C3: for all tick counts N, the rotation angle after N ticks equals
0.01 * N starting from 0, and the angle is monotonically non-decreasing
across ticks. -/
theorem rotation_after_ticks (ops : Ops) (w h N M : ℕ) (hNM : N ≤ M) :
    (stateAfter ops w h N).rotation = (N : ℚ) * (1 / 100) ∧
    (stateAfter ops w h N).rotation ≤ (stateAfter ops w h M).rotation := by
  constructor
  · rw [stateAfter_rotation]
    ring
  · rw [stateAfter_rotation, stateAfter_rotation]
    have hq : (N : ℚ) ≤ (M : ℚ) := by exact_mod_cast hNM
    linarith

theorem rotation_after_ticks_witness :
    2 ≤ 3 ∧
    ((stateAfter opsZero 640 480 2).rotation = ((2 : ℕ) : ℚ) * (1 / 100) ∧
      (stateAfter opsZero 640 480 2).rotation ≤ (stateAfter opsZero 640 480 3).rotation) :=
  ⟨by decide, rotation_after_ticks opsZero 640 480 2 3 (by decide)⟩

/-- C4: the camera uniform buffer contents are written once at startup and
never modified afterwards: one update step leaves them unchanged, and after
any number of ticks both the camera buffer and the camera contents observed
at the corresponding submission equal the startup contents. -/
theorem camera_buffer_invariant (ops : Ops) (w h n : ℕ) (s : State) :
    (update ops s).cameraBuf = s.cameraBuf ∧
    (stateAfter ops w h n).cameraBuf = (initState ops w h).cameraBuf ∧
    (submissionAt ops w h n).cameraAtSubmit = (initState ops w h).cameraBuf :=
  ⟨rfl, stateAfter_cameraBuf ops w h n, stateAfter_cameraBuf ops w h n⟩

/-- C7: the index buffer holds exactly 36 indices forming 12 triangles, every
index lies in [0,7], each of the 8 declared cube vertices is referenced, and
the draw call of every tick covers index range 0..36 with instance range
0..1. -/
theorem index_buffer_and_draw :
    indices.length = 36 ∧
    (indices.all fun i => decide (i ≤ 7)) = true ∧
    indices.length / 3 = 12 ∧
    vertices.length / 6 = 8 ∧
    ((List.range 8).all fun v => decide (v ∈ indices)) = true ∧
    ∀ ops w h n, (submissionAt ops w h n).draw = ⟨0, 36, 0, 0, 1⟩ := by
  refine ⟨by decide, by decide, by decide, by decide, by decide, ?_⟩
  intro ops w h n
  simp only [submissionAt, render]
  rw [stateAfter_numIndices]

/-- C8: at startup the camera uniform equals projection * view for the camera
at (3,3,3) looking at the origin with up +Y, with a 45 degree field of view,
near plane 0.1, far plane 100, and aspect equal to surface width over height
at startup; the model uniform is initialized to the identity matrix, and the
glam identity literal is the identity matrix. -/
theorem camera_setup (ops : Ops) (w h : ℕ) :
    (initState ops w h).cameraBuf =
      perspectiveRhGl ops (toRadians ops 45) ((w : ℚ) / (h : ℚ)) (1/10) 100 *
        lookAtRh ops ⟨3, 3, 3⟩ ⟨0, 0, 0⟩ ⟨0, 1, 0⟩ ∧
    (initState ops w h).modelBuf = identityMat ∧
    identityMat = (1 : Mat4) ∧
    (initState ops w h).configWidth = w ∧ (initState ops w h).configHeight = h := by
  refine ⟨rfl, rfl, ?_, rfl, rfl⟩
  decide

/-- C10: the rotation angle is incremented before the model matrix is
computed and written, so the submission of every tick N >= 1 carries a model
buffer written during that update (never the creation-time identity write) at
angle N/100, which is at least 0.01. -/
theorem submitted_model_never_initial (ops : Ops) (w h N : ℕ) (hN : 1 ≤ N) :
    (submissionAt ops w h N).modelFromCreation = false ∧
    (1 / 100 : ℚ) ≤ (stateAfter ops w h N).rotation ∧
    (submissionAt ops w h N).modelAtSubmit = modelTransformAt ops N := by
  refine ⟨?_, ?_, ?_⟩
  · simpa only [submissionAt, render] using stateAfter_modelBufFromCreation ops w h N hN
  · rw [stateAfter_rotation]
    have hq : (1 : ℚ) ≤ (N : ℚ) := by exact_mod_cast hN
    linarith
  · simpa only [submissionAt, render] using stateAfter_modelBuf ops w h N hN

theorem submitted_model_never_initial_witness :
    1 ≤ 1 ∧
    ((submissionAt opsZero 640 480 1).modelFromCreation = false ∧
      (1 / 100 : ℚ) ≤ (stateAfter opsZero 640 480 1).rotation ∧
      (submissionAt opsZero 640 480 1).modelAtSubmit = modelTransformAt opsZero 1) :=
  ⟨by decide, submitted_model_never_initial opsZero 640 480 1 (by decide)⟩

/-- C2 counterexample: in rotating-cube State::render, a first image
acquisition failure produces one attempt, zero surface reconfigurations and a
panic — the driver does not reconfigure and retry once as the claim states. -/
theorem rc_no_retry_counterexample :
    rcAcquire AcqOutcome.failure = ⟨1, 0, true⟩ ∧
    ¬((rcAcquire AcqOutcome.failure).attempts = 2 ∧
      (rcAcquire AcqOutcome.failure).reconfigures = 1) := by
  decide

/-- C2 amended: the wgpu-test redraw handler reconfigures the surface once
and retries acquisition exactly once on a first acquisition failure of any
kind, and a second consecutive failure panics, so at most two attempts and
one reconfiguration ever happen; the rotating-cube render makes exactly one
attempt, never reconfigures, and panics on its first failure. -/
theorem acquisition_retry_policy :
    (∀ o2, wtAcquire AcqOutcome.success o2 = ⟨1, 0, false⟩) ∧
    wtAcquire AcqOutcome.failure AcqOutcome.success = ⟨2, 1, false⟩ ∧
    wtAcquire AcqOutcome.failure AcqOutcome.failure = ⟨2, 1, true⟩ ∧
    (∀ o1 o2, (wtAcquire o1 o2).attempts ≤ 2 ∧ (wtAcquire o1 o2).reconfigures ≤ 1) ∧
    (∀ o, (rcAcquire o).attempts = 1 ∧ (rcAcquire o).reconfigures = 0) ∧
    (rcAcquire AcqOutcome.failure).panicked = true := by
  refine ⟨?_, rfl, rfl, ?_, ?_, rfl⟩
  · intro o2
    cases o2 <;> rfl
  · intro o1 o2
    cases o1 <;> cases o2 <;> exact ⟨by decide, by decide⟩
  · intro o
    cases o <;> exact ⟨rfl, rfl⟩

/-- C5 counterexample: with capabilities reporting a non-sRGB format first
and an sRGB format second, rotating-cube selects the non-sRGB first format
even though an sRGB one is offered; and with Immediate as the first reported
present mode, wgpu-test selects a present mode that is not Fifo. -/
theorem format_mode_counterexample :
    rcChooseFormat ⟨[⟨0, false⟩, ⟨1, true⟩], [PresentMode.fifo]⟩ = some ⟨0, false⟩ ∧
    (⟨1, true⟩ : TexFormat) ∈
      (⟨[⟨0, false⟩, ⟨1, true⟩], [PresentMode.fifo]⟩ : SurfaceCaps).formats ∧
    (⟨1, true⟩ : TexFormat).srgb = true ∧
    (⟨0, false⟩ : TexFormat).srgb = false ∧
    choosePresentMode ⟨[⟨0, true⟩], [PresentMode.immediate]⟩ = some PresentMode.immediate ∧
    PresentMode.immediate ≠ PresentMode.fifo := by
  decide

/-- C5 amended: rotating-cube configures the surface with the first reported
format unconditionally and the Fifo present mode; wgpu-test prefers an sRGB
format when one is offered and falls back to the first reported format
otherwise, and it uses the first reported present mode, which need not be
Fifo. -/
theorem format_mode_amended (caps : SurfaceCaps) (h : caps.formats ≠ []) :
    rcChooseFormat caps = some (caps.formats.head h) ∧
    rcPresentMode = PresentMode.fifo ∧
    ((∃ f ∈ caps.formats, f.srgb = true) →
      ∃ f, chooseFormat caps = some f ∧ f.srgb = true ∧ f ∈ caps.formats) ∧
    ((∀ f ∈ caps.formats, f.srgb = false) →
      chooseFormat caps = some (caps.formats.head h)) ∧
    choosePresentMode caps = caps.presentModes.head? := by
  refine ⟨?_, rfl, ?_, ?_, rfl⟩
  · obtain ⟨a, t, hl⟩ := List.exists_cons_of_ne_nil h
    simp [rcChooseFormat, hl]
  · rintro ⟨f, hf, hsrgb⟩
    cases hfind : caps.formats.find? (fun f => f.srgb) with
    | none =>
      exfalso
      have hnone := List.find?_eq_none.mp hfind f hf
      simp [hsrgb] at hnone
    | some g =>
      refine ⟨g, by simp [chooseFormat, hfind], ?_, List.mem_of_find?_eq_some hfind⟩
      have := List.find?_some hfind
      simpa using this
  · intro hall
    have hnone : caps.formats.find? (fun f => f.srgb) = none :=
      List.find?_eq_none.mpr fun f hf => by simp [hall f hf]
    obtain ⟨a, t, hl⟩ := List.exists_cons_of_ne_nil h
    rw [hl] at hnone
    simp [chooseFormat, hnone, hl]

theorem format_mode_amended_witness :
    (⟨[⟨0, false⟩, ⟨1, true⟩], [PresentMode.fifo]⟩ : SurfaceCaps).formats ≠ [] ∧
    (rcChooseFormat ⟨[⟨0, false⟩, ⟨1, true⟩], [PresentMode.fifo]⟩ =
        some ((⟨[⟨0, false⟩, ⟨1, true⟩], [PresentMode.fifo]⟩ : SurfaceCaps).formats.head
          (by decide)) ∧
      rcPresentMode = PresentMode.fifo ∧
      ((∃ f ∈ (⟨[⟨0, false⟩, ⟨1, true⟩], [PresentMode.fifo]⟩ : SurfaceCaps).formats,
          f.srgb = true) →
        ∃ f, chooseFormat ⟨[⟨0, false⟩, ⟨1, true⟩], [PresentMode.fifo]⟩ = some f ∧
          f.srgb = true ∧
          f ∈ (⟨[⟨0, false⟩, ⟨1, true⟩], [PresentMode.fifo]⟩ : SurfaceCaps).formats) ∧
      ((∀ f ∈ (⟨[⟨0, false⟩, ⟨1, true⟩], [PresentMode.fifo]⟩ : SurfaceCaps).formats,
          f.srgb = false) →
        chooseFormat ⟨[⟨0, false⟩, ⟨1, true⟩], [PresentMode.fifo]⟩ =
          some ((⟨[⟨0, false⟩, ⟨1, true⟩], [PresentMode.fifo]⟩ : SurfaceCaps).formats.head
            (by decide))) ∧
      choosePresentMode ⟨[⟨0, false⟩, ⟨1, true⟩], [PresentMode.fifo]⟩ =
        (⟨[⟨0, false⟩, ⟨1, true⟩], [PresentMode.fifo]⟩ : SurfaceCaps).presentModes.head?) :=
  ⟨by decide, format_mode_amended ⟨[⟨0, false⟩, ⟨1, true⟩], [PresentMode.fifo]⟩ (by decide)⟩

/-- C6 counterexample: rotating-cube ignores size-changed notifications: after
a Resized(200,100) event its surface configuration still holds the startup
size 640 by 480 instead of the newly reported size. -/
theorem resize_ignored_counterexample :
    ((rcHandleEvent opsZero (Event.resized 200 100) (initState opsZero 640 480)).1).configWidth = 640 ∧
    ((rcHandleEvent opsZero (Event.resized 200 100) (initState opsZero 640 480)).1).configHeight = 480 ∧
    (640 : ℕ) ≠ 200 ∧ (480 : ℕ) ≠ 100 :=
  ⟨rfl, rfl, by decide, by decide⟩

/-- C6 amended: the wgpu-test event loop updates the surface configuration to
each newly reported size and reconfigures the same surface handle in place,
acquisition succeeds after a resize and again after a second resize back, and
the loop keeps running; the rotating-cube event loop ignores resize
notifications entirely, leaving its state unchanged. -/
theorem resize_reconfigure_amended (s : WTState) (w2 h2 w3 h3 : ℕ) (ops : Ops) (s0 : State) :
    ((wtHandleEvent (Event.resized w2 h2) s).1).configWidth = w2 ∧
    ((wtHandleEvent (Event.resized w2 h2) s).1).configHeight = h2 ∧
    ((wtHandleEvent (Event.resized w2 h2) s).1).surfaceId = s.surfaceId ∧
    (wtHandleEvent (Event.resized w2 h2) s).2 = LoopFlow.poll ∧
    acquireOk w2 h2 ((wtHandleEvent (Event.resized w2 h2) s).1) = true ∧
    ((wtHandleEvent (Event.resized w3 h3) ((wtHandleEvent (Event.resized w2 h2) s).1)).1).configWidth = w3 ∧
    ((wtHandleEvent (Event.resized w3 h3) ((wtHandleEvent (Event.resized w2 h2) s).1)).1).configHeight = h3 ∧
    ((wtHandleEvent (Event.resized w3 h3) ((wtHandleEvent (Event.resized w2 h2) s).1)).1).surfaceId = s.surfaceId ∧
    acquireOk w3 h3 ((wtHandleEvent (Event.resized w3 h3) ((wtHandleEvent (Event.resized w2 h2) s).1)).1) = true ∧
    (rcHandleEvent ops (Event.resized w2 h2) s0).1 = s0 := by
  simp [wtHandleEvent, handleResize, acquireOk, rcHandleEvent]

/-- C9 counterexample: rotating-cube ignores a close-requested event: the
control flow after handling it is still Poll, so the loop does not exit and
no exit code is produced, contradicting a clean exit with code 0 on close. -/
theorem close_ignored_counterexample :
    (rcHandleEvent opsZero Event.closeRequested (initState opsZero 640 480)).2 = LoopFlow.poll ∧
    exitCode (rcHandleEvent opsZero Event.closeRequested (initState opsZero 640 480)).2 = none ∧
    LoopFlow.poll ≠ LoopFlow.exitClean :=
  ⟨rfl, rfl, by decide⟩

/-- C9 amended: the wgpu-test event loop exits cleanly on a close-requested
event, leaving its state untouched (the current tick having completed), and
the clean exit carries process exit code 0 while a panic abort carries the
non-zero code 101; the rotating-cube event loop ignores close-requested and
keeps polling. -/
theorem close_request_exit (s : WTState) (ops : Ops) (s0 : State) :
    wtHandleEvent Event.closeRequested s = (s, LoopFlow.exitClean) ∧
    exitCode LoopFlow.exitClean = some 0 ∧
    exitCode LoopFlow.panicAbort = some 101 ∧
    (101 : ℕ) ≠ 0 ∧
    (rcHandleEvent ops Event.closeRequested s0).2 = LoopFlow.poll :=
  ⟨rfl, rfl, rfl, by decide, rfl⟩
